import Mathlib

/-!
Verification of the bubbletree tree-update and lifecycle-routing core
(repository yhcote/bubbletree).

The Go sources are shallowly embedded below:

* `State`, `Properties` and their operations come from `common.go`
  (states at lines 254-262, property bit-set at lines 280-327);
* the message and command protocol (`Msg`, `Cmd`, the `IsRecipient`
  predicates and the command constructors) comes from `common.go`
  lines 331-422, with `teaBatch` embedding `tea.Batch` of the
  external bubbletea driver (nil commands are dropped; zero commands
  give a nil command, a single command is returned as-is, several are
  wrapped in a batch);
* `DefaultLeafModel.update` embeds `DefaultLeafModel.Update`
  (`leafnode.go` lines 41-93); `DefaultBranchModel.update` embeds the
  textually identical `DefaultBranchModel.Update` (`branchnode.go`
  lines 56-108);
* the child-registry fan-out `DefaultBranchModel.updateNodeModels`
  (`branchnode.go` lines 111-151) and `DefaultRootModel.updateNodeModels`
  (`rootnode.go` lines 103-143) iterate a snapshot of the registry,
  update every child and store the updated child back under its own
  model ID.  The Go code runs one goroutine per child and joins them
  all before returning; the claims proved about the fan-out (message
  counts, registry keys) are insensitive to the interleaving, so the
  fan-out is embedded as a sequential fold over the registry snapshot;
* side effects are made explicit: a model's context-cancellation
  handle (`Cancel`, invoked through `CancelContext`, `common.go`
  lines 115-122) is represented by the flag `cancelSet` (whether the
  handle is non-nil) and every update result carries `cancels`, the
  number of invocations of the handle during that call;
* `Model.update` in namespace `ExampleRoot` embeds the example root
  model's `Update` (`example/models/root/model.go` lines 121-172),
  parameterized over the child-model state and its update function,
  since the concrete children (configurator form, core application)
  are out-of-scope collaborators.

Go `error` values are abstracted to their message string.  Logging and
wall-clock timing are not modelled (they do not affect any model value
or command).
-/

namespace Bubbletree

/-- A Go `error` value, abstracted to its message. -/
structure GoError where
  message : String
deriving DecidableEq, Repr

/-- Model lifecycle states, `common.go` lines 254-262.  The `iota`
order there is Inactive = 0, Active = 1, ShuttingDown = 2,
Finished = 3. -/
inductive State where
  | inactiveState
  | activeState
  | shuttingDownState
  | finishedState
deriving DecidableEq, Repr

/-- The numeric value of a state under the `iota` declaration order;
used to express the spec's order Inactive < Active < ShuttingDown <
Finished. -/
def State.toNat : State → Nat
  | .inactiveState => 0
  | .activeState => 1
  | .shuttingDownState => 2
  | .finishedState => 3

/-- `Properties` is a bit-set over a Go `int`, `common.go` line 285.
Reachable values are non-negative, so it is embedded as `Nat`. -/
abbrev Properties := Nat

/-- `Disabled Properties = 1 << iota` (bit 0), `common.go` line 281. -/
def Disabled : Properties := 1

/-- `Focused` (bit 1), `common.go` line 282. -/
def Focused : Properties := 2

/-- `SetDisabled`, `common.go` lines 302-306: `*p |= Disabled`.
The Go method also returns the old and new values for logging only;
the embedding returns the new property set. -/
def Properties.setDisabled (p : Properties) : Properties := p ||| Disabled

/-- `UnsetDisabled`, `common.go` lines 309-313: `*p &= ^Disabled`,
i.e. and-not, which on non-negative values is `Nat.ldiff`. -/
def Properties.unsetDisabled (p : Properties) : Properties := p.ldiff Disabled

/-- `SetFocused`, `common.go` lines 316-320: `*p |= Focused`. -/
def Properties.setFocused (p : Properties) : Properties := p ||| Focused

/-- `UnsetFocused`, `common.go` lines 323-327: `*p &= ^Focused`. -/
def Properties.unsetFocused (p : Properties) : Properties := p.ldiff Focused

/-- The message protocol, `common.go` lines 331-355, plus the external
messages that the example models react to: bubbletea's `KeyMsg`,
`WindowSizeMsg` and `QuitMsg`, the configurator's `ConfigReadyMsg` /
`ConfigMissingMsg`, and `otherMsg` standing for any further message
type (the default update's type switch falls through on those). -/
inductive Msg where
  | shutDownMsg (modelIDs : List String)
  | modelFinishedMsg (modelID : String)
  | setFocusMsg (modelID : String)
  | setDisabledMsg (modelIDs : List String)
  | errMsg (err : GoError)
  | quitMsg
  | keyMsg (key : String)
  | windowSizeMsg (width height : Int)
  | configReadyMsg
  | configMissingMsg
  | otherMsg (tag : String)
deriving DecidableEq, Repr

/-- `ShutDownMsg.IsRecipient`, `common.go` lines 359-361:
`slices.Contains(msg.ModelIDs, id)`. -/
def shutDownIsRecipient (modelIDs : List String) (id : String) : Bool :=
  modelIDs.contains id

/-- `ModelFinishedMsg.IsRecipient`, `common.go` lines 365-367. -/
def modelFinishedIsRecipient (modelID id : String) : Bool :=
  modelID == id

/-- `SetFocusMsg.IsRecipient`, `common.go` lines 371-373. -/
def setFocusIsRecipient (modelID id : String) : Bool :=
  modelID == id

/-- `SetDisabledMsg.IsRecipient`, `common.go` lines 377-379. -/
def setDisabledIsRecipient (modelIDs : List String) (id : String) : Bool :=
  modelIDs.contains id

/-- A `tea.Cmd` value: a deferred producer of one message, a batch of
commands (`tea.Batch` result), or the driver's `tea.Quit`.  A Go nil
command is `Option.none` at use sites. -/
inductive Cmd where
  | msgCmd (msg : Msg)
  | batchCmd (cmds : List Cmd)
  | quit

/-- `tea.Batch` of the bubbletea driver: nil commands are dropped; no
remaining command yields nil, exactly one is returned unwrapped, and
several are wrapped in one batch command. -/
def teaBatch (cmds : List (Option Cmd)) : Option Cmd :=
  match cmds.filterMap id with
  | [] => none
  | [c] => some c
  | valid => some (.batchCmd valid)

mutual

/-- Fully executing ("draining") a command: the list of messages the
driver gets back from it, batches flattened.  `tea.Quit` produces the
driver's `QuitMsg`. -/
def Cmd.drain : Cmd → List Msg
  | .msgCmd m => [m]
  | .quit => [.quitMsg]
  | .batchCmd cs => Cmd.drainList cs

/-- Draining every command of a batch, in order. -/
def Cmd.drainList : List Cmd → List Msg
  | [] => []
  | c :: cs => Cmd.drain c ++ Cmd.drainList cs

end

/-- Draining an optional (possibly nil) command. -/
def drainOpt : Option Cmd → List Msg
  | none => []
  | some c => c.drain

/-- `ShutDownCmd`, `common.go` lines 385-389. -/
def ShutDownCmd (ids : List String) : Option Cmd :=
  some (.msgCmd (.shutDownMsg ids))

/-- `ModelFinishedCmd`, `common.go` lines 393-397. -/
def ModelFinishedCmd (id : String) : Option Cmd :=
  some (.msgCmd (.modelFinishedMsg id))

/-- `SetFocusCmd`, `common.go` lines 401-405. -/
def SetFocusCmd (id : String) : Option Cmd :=
  some (.msgCmd (.setFocusMsg id))

/-- `SetDisabledCmd`, `common.go` lines 409-413. -/
def SetDisabledCmd (ids : List String) : Option Cmd :=
  some (.msgCmd (.setDisabledMsg ids))

/-- `ErrCmd`, `common.go` lines 416-420. -/
def ErrCmd (err : GoError) : Option Cmd :=
  some (.msgCmd (.errMsg err))

/-- `DefaultCommonModel`, `common.go` lines 45-69, restricted to the
fields the update logic reads or writes: `ID`, `State`, `Properties`,
and whether the context-cancel handle `Cancel` is non-nil
(`cancelSet`).  `Viper`, `Logger`, `Ctx` and `Theme` never influence
any model value or command. -/
structure DefaultCommonModel where
  id : String
  state : State
  properties : Properties
  cancelSet : Bool
deriving DecidableEq, Repr

/-- `GetModelID`, `common.go` lines 129-131. -/
def DefaultCommonModel.getModelID (m : DefaultCommonModel) : String := m.id

/-- `GetState`, `common.go` lines 138-140. -/
def DefaultCommonModel.getState (m : DefaultCommonModel) : State := m.state

/-- `IsActive`, `common.go` lines 144-146. -/
def DefaultCommonModel.isActive (m : DefaultCommonModel) : Bool :=
  m.state == .activeState

/-- `IsInactive`, `common.go` lines 150-152. -/
def DefaultCommonModel.isInactive (m : DefaultCommonModel) : Bool :=
  m.state == .inactiveState

/-- `IsShuttingDown`, `common.go` lines 158-160. -/
def DefaultCommonModel.isShuttingDown (m : DefaultCommonModel) : Bool :=
  m.state == .shuttingDownState

/-- `IsFinished`, `common.go` lines 166-168. -/
def DefaultCommonModel.isFinished (m : DefaultCommonModel) : Bool :=
  m.state == .finishedState

/-- `IsDisabled`, `common.go` lines 180-182: `m.Properties&Disabled != 0`. -/
def DefaultCommonModel.isDisabled (m : DefaultCommonModel) : Bool :=
  m.properties &&& Disabled != 0

/-- `IsFocused`, `common.go` lines 188-190: `m.Properties&Focused != 0`. -/
def DefaultCommonModel.isFocused (m : DefaultCommonModel) : Bool :=
  m.properties &&& Focused != 0

/-- The number of invocations of the model's cancellation handle made
by one call to `CancelContext`, `common.go` lines 115-122: the handle
is invoked when it is non-nil, otherwise a warning is logged and
nothing is invoked. -/
def DefaultCommonModel.cancelContextCount (m : DefaultCommonModel) : Nat :=
  if m.cancelSet then 1 else 0

/-- The result of one `Update` call: the updated model, the returned
(possibly nil) command, and the number of invocations of the model's
cancellation handle during the call. -/
structure UpdateResult (α : Type) where
  model : α
  cmd : Option Cmd
  cancels : Nat

/-- `DefaultLeafModel`, `leafnode.go` lines 29-33: it embeds
`DefaultCommonModel` and adds nothing. -/
structure DefaultLeafModel extends DefaultCommonModel
deriving DecidableEq, Repr

/-- `DefaultLeafModel.Update`, `leafnode.go` lines 41-93.  The type
switch handles `SetDisabledMsg`, `SetFocusMsg`, `ShutDownMsg` and
`ModelFinishedMsg`; every other message leaves the model unchanged.
The function returns `m, tea.Batch(cmds...)` where `cmds` receives
`ModelFinishedCmd(m.GetModelID())` only in the shutdown branch. -/
def DefaultLeafModel.update (m : DefaultLeafModel) (msg : Msg) :
    UpdateResult DefaultLeafModel :=
  match msg with
  | .setDisabledMsg modelIDs =>
    if setDisabledIsRecipient modelIDs m.toDefaultCommonModel.getModelID then
      if !m.toDefaultCommonModel.isDisabled then
        { model := { m with properties := m.properties.setDisabled },
          cmd := teaBatch [], cancels := 0 }
      else
        { model := m, cmd := teaBatch [], cancels := 0 }
    else
      if m.toDefaultCommonModel.isDisabled then
        { model := { m with properties := m.properties.unsetDisabled },
          cmd := teaBatch [], cancels := 0 }
      else
        { model := m, cmd := teaBatch [], cancels := 0 }
  | .setFocusMsg modelID =>
    if setFocusIsRecipient modelID m.toDefaultCommonModel.getModelID then
      if !m.toDefaultCommonModel.isFocused then
        { model := { m with properties := m.properties.setFocused },
          cmd := teaBatch [], cancels := 0 }
      else
        { model := m, cmd := teaBatch [], cancels := 0 }
    else
      if m.toDefaultCommonModel.isFocused then
        { model := { m with properties := m.properties.unsetFocused },
          cmd := teaBatch [], cancels := 0 }
      else
        { model := m, cmd := teaBatch [], cancels := 0 }
  | .shutDownMsg modelIDs =>
    if shutDownIsRecipient modelIDs m.toDefaultCommonModel.getModelID &&
        !m.toDefaultCommonModel.isShuttingDown then
      { model := { m with state := .shuttingDownState },
        cmd := teaBatch [ModelFinishedCmd m.toDefaultCommonModel.getModelID],
        cancels := m.toDefaultCommonModel.cancelContextCount }
    else
      { model := m, cmd := teaBatch [], cancels := 0 }
  | .modelFinishedMsg modelID =>
    if modelFinishedIsRecipient modelID m.toDefaultCommonModel.getModelID &&
        !m.toDefaultCommonModel.isFinished then
      { model := { m with state := .finishedState },
        cmd := teaBatch [], cancels := 0 }
    else
      { model := m, cmd := teaBatch [], cancels := 0 }
  | _ => { model := m, cmd := teaBatch [], cancels := 0 }

/-- `DefaultBranchModel.Update`, `branchnode.go` lines 56-108.  The
body is textually identical to `DefaultLeafModel.Update`; it reads and
writes only the embedded `DefaultCommonModel` (the `Models` registry
field is untouched, it is threaded through unchanged by
`NodeModel.update` below). -/
def DefaultBranchModel.update (m : DefaultCommonModel) (msg : Msg) :
    UpdateResult DefaultCommonModel :=
  match msg with
  | .setDisabledMsg modelIDs =>
    if setDisabledIsRecipient modelIDs m.getModelID then
      if !m.isDisabled then
        { model := { m with properties := m.properties.setDisabled },
          cmd := teaBatch [], cancels := 0 }
      else
        { model := m, cmd := teaBatch [], cancels := 0 }
    else
      if m.isDisabled then
        { model := { m with properties := m.properties.unsetDisabled },
          cmd := teaBatch [], cancels := 0 }
      else
        { model := m, cmd := teaBatch [], cancels := 0 }
  | .setFocusMsg modelID =>
    if setFocusIsRecipient modelID m.getModelID then
      if !m.isFocused then
        { model := { m with properties := m.properties.setFocused },
          cmd := teaBatch [], cancels := 0 }
      else
        { model := m, cmd := teaBatch [], cancels := 0 }
    else
      if m.isFocused then
        { model := { m with properties := m.properties.unsetFocused },
          cmd := teaBatch [], cancels := 0 }
      else
        { model := m, cmd := teaBatch [], cancels := 0 }
  | .shutDownMsg modelIDs =>
    if shutDownIsRecipient modelIDs m.getModelID && !m.isShuttingDown then
      { model := { m with state := .shuttingDownState },
        cmd := teaBatch [ModelFinishedCmd m.getModelID],
        cancels := m.cancelContextCount }
    else
      { model := m, cmd := teaBatch [], cancels := 0 }
  | .modelFinishedMsg modelID =>
    if modelFinishedIsRecipient modelID m.getModelID && !m.isFinished then
      { model := { m with state := .finishedState },
        cmd := teaBatch [], cancels := 0 }
    else
      { model := m, cmd := teaBatch [], cancels := 0 }
  | _ => { model := m, cmd := teaBatch [], cancels := 0 }

/-- A value stored in a parent's child registry: a leaf model or a
branch model.  A `DefaultBranchModel` (`branchnode.go` lines 41-48) is
its embedded `DefaultCommonModel` plus its own `Models` registry; the
`branch` constructor carries both.  (The Go registry stores interface
values and panics when an entry is neither shape; the closed sum makes
that case unrepresentable.) -/
inductive NodeModel where
  | leaf (m : DefaultLeafModel)
  | branch (common : DefaultCommonModel) (models : List (String × NodeModel))

/-- The child registry backing the `Models *sync.Map` field: a mapping
from model ID to node value. -/
abbrev Registry := List (String × NodeModel)

/-- `GetModelID` of a registry entry (promoted from the embedded
`DefaultCommonModel` in both shapes). -/
def NodeModel.getModelID : NodeModel → String
  | .leaf m => m.toDefaultCommonModel.getModelID
  | .branch c _ => c.getModelID

/-- `GetState` of a registry entry. -/
def NodeModel.getState : NodeModel → State
  | .leaf m => m.toDefaultCommonModel.getState
  | .branch c _ => c.getState

/-- `IsFocused` of a registry entry. -/
def NodeModel.isFocused : NodeModel → Bool
  | .leaf m => m.toDefaultCommonModel.isFocused
  | .branch c _ => c.isFocused

/-- `IsDisabled` of a registry entry. -/
def NodeModel.isDisabled : NodeModel → Bool
  | .leaf m => m.toDefaultCommonModel.isDisabled
  | .branch c _ => c.isDisabled

/-- Dispatching `Update` on a registry entry, as the fan-out does with
its `BranchModel` / `LeafModel` type assertions (`branchnode.go` lines
124-131): a branch updates its common part and keeps its own child
registry. -/
def NodeModel.update (n : NodeModel) (msg : Msg) : UpdateResult NodeModel :=
  match n with
  | .leaf m =>
    let r := m.update msg
    { model := .leaf r.model, cmd := r.cmd, cancels := r.cancels }
  | .branch c models =>
    let r := DefaultBranchModel.update c msg
    { model := .branch r.model models, cmd := r.cmd, cancels := r.cancels }

/-- `sync.Map.Store`: replace the value of an existing key, or add the
key at the end. -/
def storeModel : Registry → String → NodeModel → Registry
  | [], k, v => [(k, v)]
  | (k', v') :: rest, k, v =>
    if k' = k then (k, v) :: rest else (k', v') :: storeModel rest k v

/-- The result of one fan-out (`UpdateNodeModels`) call: the registry
after all stores, the batched command, and the total number of
cancellation-handle invocations by the children. -/
structure FanOutResult where
  models : Registry
  cmd : Option Cmd
  cancels : Nat

/-- The fan-out loop body shared by `DefaultBranchModel.UpdateNodeModels`
(`branchnode.go` lines 111-151) and `DefaultRootModel.UpdateNodeModels`
(`rootnode.go` lines 103-143, a textual duplicate): for every entry of
the registry snapshot, run the child's `Update` and `Store` the updated
child back under its own model ID, collecting each child's command.
The Go code does this in one goroutine per child joined before
returning; the claims proved below are insensitive to the order, so
the snapshot is processed sequentially. -/
def updateNodeModelsLoop (msg : Msg) :
    Registry → List (String × NodeModel) → List (Option Cmd) → Nat → FanOutResult
  | reg, [], cmds, cancels =>
    { models := reg, cmd := teaBatch cmds, cancels := cancels }
  | reg, entry :: rest, cmds, cancels =>
    let r := entry.2.update msg
    updateNodeModelsLoop msg (storeModel reg r.model.getModelID r.model) rest
      (cmds ++ [r.cmd]) (cancels + r.cancels)

/-- `DefaultBranchModel.UpdateNodeModels`, `branchnode.go` lines
111-151. -/
def DefaultBranchModel.updateNodeModels (models : Registry) (msg : Msg) :
    FanOutResult :=
  updateNodeModelsLoop msg models models [] 0

/-- `DefaultRootModel.UpdateNodeModels`, `rootnode.go` lines 103-143;
the body is a textual duplicate of the branch fan-out. -/
def DefaultRootModel.updateNodeModels (models : Registry) (msg : Msg) :
    FanOutResult :=
  updateNodeModelsLoop msg models models [] 0

/-- `DefaultRootModel`, `rootnode.go` lines 47-56, restricted to the
fields the claims read: the last recorded error `Err` and the child
registry. -/
structure DefaultRootModel where
  err : Option GoError
  models : Registry

/-- `DefaultRootModel.LastError`, `rootnode.go` lines 161-163. -/
def DefaultRootModel.lastError (m : DefaultRootModel) : Option GoError :=
  m.err

namespace ExampleRoot

/-- The example application's root model, `example/models/root/model.go`
lines 69-94, restricted to the fields its `Update` reads or writes:
the recorded error `err`, the `ready` and `quitting` flags, the
focused child ID, the screen dimensions, and the two child models.
The children (a configurator leaf and a coreapp branch, both custom
models) are abstracted as a state of type `C`; only their model IDs
are needed by the root's own switch.  Wall-clock timing fields are not
modelled. -/
structure Model (C : Type) where
  err : Option GoError
  ready : Bool
  quitting : Bool
  focused : String
  width : Int
  height : Int
  configuratorModelID : String
  coreappModelID : String
  children : C

/-- The tail of `Model.Update` (`example/models/root/model.go` lines
163-172): propagate the message to the child models through
`UpdateNodeModels`, append the resulting command and return the
batched commands. -/
def Model.fanOut {C : Type} (childUpd : C → Msg → C × Option Cmd)
    (m : Model C) (msg : Msg) (cmds : List (Option Cmd)) :
    Model C × Option Cmd :=
  let r := childUpd m.children msg
  ({ m with children := r.1 }, teaBatch (cmds ++ [r.2]))

/-- `Model.Update`, `example/models/root/model.go` lines 121-172,
parameterized by the children's update function `childUpd` (the
`UpdateNodeModels` at lines 219-232, which calls the two concrete
child models).  The switch: quit keys set `quitting` and return
`tea.Quit` at once; `SetFocusMsg` records the focused ID;
`WindowSizeMsg` records the dimensions and sets `ready`;
`ConfigReadyMsg` queues a focus change to the coreapp child;
`ModelFinishedMsg` for the coreapp child queues a focus reset; and
`ErrMsg` logs the error, sets `quitting` and returns `tea.Quit` at
once — every non-returning case then falls through to the child
fan-out. -/
def Model.update {C : Type} (childUpd : C → Msg → C × Option Cmd)
    (m : Model C) (msg : Msg) : Model C × Option Cmd :=
  match msg with
  | .keyMsg key =>
    if key == "ctrl+c" || key == "esc" then
      ({ m with quitting := true }, some .quit)
    else
      Model.fanOut childUpd m msg []
  | .setFocusMsg modelID =>
    Model.fanOut childUpd { m with focused := modelID } msg []
  | .windowSizeMsg w h =>
    Model.fanOut childUpd { m with width := w, height := h, ready := true } msg []
  | .configReadyMsg =>
    Model.fanOut childUpd m msg [SetFocusCmd m.coreappModelID]
  | .modelFinishedMsg modelID =>
    if modelFinishedIsRecipient modelID m.coreappModelID then
      Model.fanOut childUpd m msg [SetFocusCmd ""]
    else
      Model.fanOut childUpd m msg []
  | .errMsg _ =>
    ({ m with quitting := true }, some .quit)
  | _ =>
    Model.fanOut childUpd m msg []

end ExampleRoot

/-- The same leaf node with the `Disabled` property bit set, leaving
every other field alone; used to state that the default update ignores
the `Disabled` bit. -/
def disabledCopy (m : DefaultLeafModel) : DefaultLeafModel :=
  { m with properties := Properties.setDisabled m.toDefaultCommonModel.properties }

/-! ### Concrete sample nodes, used to instantiate theorems on explicit inputs -/

/-- An Active leaf node with ID `app` and a non-nil cancel handle. -/
def appNode : DefaultLeafModel :=
  { id := "app", state := .activeState, properties := 0, cancelSet := true }

/-- A Finished leaf node with ID `app`. -/
def finishedNode : DefaultLeafModel :=
  { id := "app", state := .finishedState, properties := 0, cancelSet := true }

/-- A ShuttingDown leaf node with ID `app`. -/
def shuttingNode : DefaultLeafModel :=
  { id := "app", state := .shuttingDownState, properties := 0, cancelSet := true }

/-- An Active, Disabled leaf node with ID `cfg`. -/
def disabledActiveLeaf : DefaultLeafModel :=
  { id := "cfg", state := .activeState, properties := Disabled, cancelSet := true }

/-- An Active leaf node with ID `cfg`. -/
def sampleCfgLeaf : DefaultLeafModel :=
  { id := "cfg", state := .activeState, properties := 0, cancelSet := true }

/-- The common part of an Active branch node with ID `core`. -/
def sampleCoreCommon : DefaultCommonModel :=
  { id := "core", state := .activeState, properties := 0, cancelSet := true }

/-- The common part of a ShuttingDown branch node with ID `core`. -/
def shuttingCoreCommon : DefaultCommonModel :=
  { id := "core", state := .shuttingDownState, properties := 0, cancelSet := true }

/-- The common part of a Finished branch node with ID `core`. -/
def finishedCoreCommon : DefaultCommonModel :=
  { id := "core", state := .finishedState, properties := 0, cancelSet := true }

/-- A two-entry registry: the `cfg` leaf and the childless `core`
branch, each keyed by its own model ID (as `LinkNewModel` wires
registries). -/
def sampleRegistry : Registry :=
  [("cfg", .leaf sampleCfgLeaf), ("core", .branch sampleCoreCommon [])]

/-! ### Helper lemmas about the property bit-set -/

lemma hasDisabledBit_setDisabled (p : Properties) :
    (Properties.setDisabled p &&& Disabled != 0) = true := by
  have h : Disabled = 2 ^ 0 := rfl
  rw [Properties.setDisabled, h, Nat.and_two_pow]
  simp [Nat.testBit_lor]

lemma hasDisabledBit_unsetDisabled (p : Properties) :
    (Properties.unsetDisabled p &&& Disabled != 0) = false := by
  have h : Disabled = 2 ^ 0 := rfl
  rw [Properties.unsetDisabled, h, Nat.and_two_pow, Nat.testBit_ldiff]
  simp

lemma hasFocusedBit_setFocused (p : Properties) :
    (Properties.setFocused p &&& Focused != 0) = true := by
  have h : Focused = 2 ^ 1 := rfl
  have h2 : Nat.testBit (2 ^ 1) 1 = true := rfl
  rw [Properties.setFocused, h, Nat.and_two_pow, Nat.testBit_lor, h2]
  simp

lemma hasFocusedBit_unsetFocused (p : Properties) :
    (Properties.unsetFocused p &&& Focused != 0) = false := by
  have h : Focused = 2 ^ 1 := rfl
  have h2 : Nat.testBit (2 ^ 1) 1 = true := rfl
  rw [Properties.unsetFocused, h, Nat.and_two_pow, Nat.testBit_ldiff, h2]
  simp

/-! ### Helper lemmas about the default updates -/

lemma DefaultLeafModel.leafUpdate_id (m : DefaultLeafModel) (msg : Msg) :
    ((m.update msg).model).toDefaultCommonModel.id = m.toDefaultCommonModel.id := by
  cases msg <;> simp only [DefaultLeafModel.update] <;> (repeat' split) <;> rfl

lemma DefaultBranchModel.branchUpdate_id (m : DefaultCommonModel) (msg : Msg) :
    (DefaultBranchModel.update m msg).model.id = m.id := by
  cases msg <;> simp only [DefaultBranchModel.update] <;> (repeat' split) <;> rfl

lemma NodeModel.update_getModelID (n : NodeModel) (msg : Msg) :
    ((n.update msg).model).getModelID = n.getModelID := by
  cases n with
  | leaf m =>
    simpa [NodeModel.update, NodeModel.getModelID, DefaultCommonModel.getModelID]
      using DefaultLeafModel.leafUpdate_id m msg
  | branch c models =>
    simpa [NodeModel.update, NodeModel.getModelID, DefaultCommonModel.getModelID]
      using DefaultBranchModel.branchUpdate_id c msg

/-! ### Helper lemmas about command draining -/

lemma Cmd.drainList_eq (cs : List Cmd) :
    Cmd.drainList cs = cs.flatMap Cmd.drain := by
  induction cs with
  | nil => rfl
  | cons c rest ih => simp [Cmd.drainList, ih]

lemma drainOpt_teaBatch (l : List (Option Cmd)) :
    drainOpt (teaBatch l) = (l.filterMap id).flatMap Cmd.drain := by
  unfold teaBatch
  rcases h : l.filterMap id with _ | ⟨c, rest⟩
  · simp [drainOpt]
  · cases rest with
    | nil => simp [drainOpt]
    | cons c2 rest2 => simp [drainOpt, Cmd.drain, Cmd.drainList_eq]

lemma drainOpt_teaBatch_length (l : List (Option Cmd)) :
    (drainOpt (teaBatch l)).length = (l.map fun c => (drainOpt c).length).sum := by
  rw [drainOpt_teaBatch, List.length_flatMap]
  induction l with
  | nil => rfl
  | cons c rest ih =>
    cases c with
    | none => simpa [drainOpt] using ih
    | some c0 => simpa [drainOpt] using ih

lemma teaBatch_nil : teaBatch [] = none := rfl

lemma teaBatch_single (c : Cmd) : teaBatch [some c] = some c := rfl

lemma DefaultLeafModel.leafUpdate_setFocus_isFocused (m : DefaultLeafModel) (X : String) :
    ((m.update (.setFocusMsg X)).model).toDefaultCommonModel.isFocused
      = (m.toDefaultCommonModel.id == X) := by
  simp only [DefaultLeafModel.update]
  by_cases h : X = m.toDefaultCommonModel.id
  · rw [if_pos (by simp [setFocusIsRecipient, DefaultCommonModel.getModelID, h])]
    have hid : (m.toDefaultCommonModel.id == X) = true := by simp [h]
    rw [hid]
    cases hf : m.toDefaultCommonModel.isFocused with
    | false =>
      rw [if_pos (by rfl)]
      exact hasFocusedBit_setFocused m.toDefaultCommonModel.properties
    | true =>
      rw [if_neg (by simp)]
      exact hf
  · rw [if_neg (by simp [setFocusIsRecipient, DefaultCommonModel.getModelID, h])]
    have hid : (m.toDefaultCommonModel.id == X) = false := by
      simp
      exact fun hc => h hc.symm
    rw [hid]
    cases hf : m.toDefaultCommonModel.isFocused with
    | false =>
      rw [if_neg (by simp)]
      exact hf
    | true =>
      rw [if_pos (by rfl)]
      exact hasFocusedBit_unsetFocused m.toDefaultCommonModel.properties

lemma DefaultBranchModel.branchUpdate_setFocus_isFocused (m : DefaultCommonModel) (X : String) :
    ((DefaultBranchModel.update m (.setFocusMsg X)).model).isFocused = (m.id == X) := by
  simp only [DefaultBranchModel.update]
  by_cases h : X = m.id
  · rw [if_pos (by simp [setFocusIsRecipient, DefaultCommonModel.getModelID, h])]
    have hid : (m.id == X) = true := by simp [h]
    rw [hid]
    cases hf : m.isFocused with
    | false =>
      rw [if_pos (by rfl)]
      exact hasFocusedBit_setFocused m.properties
    | true =>
      rw [if_neg (by simp)]
      exact hf
  · rw [if_neg (by simp [setFocusIsRecipient, DefaultCommonModel.getModelID, h])]
    have hid : (m.id == X) = false := by
      simp
      exact fun hc => h hc.symm
    rw [hid]
    cases hf : m.isFocused with
    | false =>
      rw [if_neg (by simp)]
      exact hf
    | true =>
      rw [if_pos (by rfl)]
      exact hasFocusedBit_unsetFocused m.properties

lemma NodeModel.update_setFocus_isFocused (n : NodeModel) (X : String) :
    ((n.update (.setFocusMsg X)).model).isFocused = (n.getModelID == X) := by
  cases n with
  | leaf m =>
    simpa [NodeModel.update, NodeModel.isFocused, NodeModel.getModelID,
      DefaultCommonModel.getModelID]
      using DefaultLeafModel.leafUpdate_setFocus_isFocused m X
  | branch c models =>
    simpa [NodeModel.update, NodeModel.isFocused, NodeModel.getModelID,
      DefaultCommonModel.getModelID]
      using DefaultBranchModel.branchUpdate_setFocus_isFocused c X

lemma DefaultLeafModel.leafUpdate_setDisabled_isDisabled (m : DefaultLeafModel)
    (ids : List String) :
    ((m.update (.setDisabledMsg ids)).model).toDefaultCommonModel.isDisabled
      = setDisabledIsRecipient ids m.toDefaultCommonModel.id := by
  simp only [DefaultLeafModel.update, DefaultCommonModel.getModelID]
  by_cases hr : setDisabledIsRecipient ids m.toDefaultCommonModel.id = true
  · rw [if_pos hr, hr]
    cases hd : m.toDefaultCommonModel.isDisabled with
    | false =>
      rw [if_pos (by rfl)]
      exact hasDisabledBit_setDisabled m.toDefaultCommonModel.properties
    | true =>
      rw [if_neg (by simp)]
      exact hd
  · have hr2 : setDisabledIsRecipient ids m.toDefaultCommonModel.id = false := by
      simpa using hr
    rw [if_neg hr, hr2]
    cases hd : m.toDefaultCommonModel.isDisabled with
    | false =>
      rw [if_neg (by simp)]
      exact hd
    | true =>
      rw [if_pos (by rfl)]
      exact hasDisabledBit_unsetDisabled m.toDefaultCommonModel.properties

lemma DefaultBranchModel.branchUpdate_setDisabled_isDisabled (m : DefaultCommonModel)
    (ids : List String) :
    ((DefaultBranchModel.update m (.setDisabledMsg ids)).model).isDisabled
      = setDisabledIsRecipient ids m.id := by
  simp only [DefaultBranchModel.update, DefaultCommonModel.getModelID]
  by_cases hr : setDisabledIsRecipient ids m.id = true
  · rw [if_pos hr, hr]
    cases hd : m.isDisabled with
    | false =>
      rw [if_pos (by rfl)]
      exact hasDisabledBit_setDisabled m.properties
    | true =>
      rw [if_neg (by simp)]
      exact hd
  · have hr2 : setDisabledIsRecipient ids m.id = false := by
      simpa using hr
    rw [if_neg hr, hr2]
    cases hd : m.isDisabled with
    | false =>
      rw [if_neg (by simp)]
      exact hd
    | true =>
      rw [if_pos (by rfl)]
      exact hasDisabledBit_unsetDisabled m.properties

lemma NodeModel.update_setDisabled_isDisabled (n : NodeModel) (ids : List String) :
    ((n.update (.setDisabledMsg ids)).model).isDisabled
      = setDisabledIsRecipient ids n.getModelID := by
  cases n with
  | leaf m =>
    simpa [NodeModel.update, NodeModel.isDisabled, NodeModel.getModelID,
      DefaultCommonModel.getModelID]
      using DefaultLeafModel.leafUpdate_setDisabled_isDisabled m ids
  | branch c models =>
    simpa [NodeModel.update, NodeModel.isDisabled, NodeModel.getModelID,
      DefaultCommonModel.getModelID]
      using DefaultBranchModel.branchUpdate_setDisabled_isDisabled c ids

lemma DefaultLeafModel.leafUpdate_drain_le (m : DefaultLeafModel) (msg : Msg) :
    (drainOpt (m.update msg).cmd).length ≤ 1 := by
  cases msg <;> simp only [DefaultLeafModel.update] <;> (repeat' split) <;>
    simp [drainOpt, teaBatch, ModelFinishedCmd, Cmd.drain]

lemma DefaultBranchModel.branchUpdate_drain_le (m : DefaultCommonModel) (msg : Msg) :
    (drainOpt (DefaultBranchModel.update m msg).cmd).length ≤ 1 := by
  cases msg <;> simp only [DefaultBranchModel.update] <;> (repeat' split) <;>
    simp [drainOpt, teaBatch, ModelFinishedCmd, Cmd.drain]

lemma NodeModel.update_drain_le (n : NodeModel) (msg : Msg) :
    (drainOpt (n.update msg).cmd).length ≤ 1 := by
  cases n with
  | leaf m => simpa [NodeModel.update] using DefaultLeafModel.leafUpdate_drain_le m msg
  | branch c models =>
    simpa [NodeModel.update] using DefaultBranchModel.branchUpdate_drain_le c msg

/-! ### Helper lemmas about the registry fan-out -/

lemma storeModel_keys (reg : Registry) (k : String) (v : NodeModel)
    (h : k ∈ reg.map Prod.fst) :
    (storeModel reg k v).map Prod.fst = reg.map Prod.fst := by
  induction reg with
  | nil => simp at h
  | cons e rest ih =>
    by_cases hk : e.1 = k
    · simp [storeModel, hk]
    · have hmem : k ∈ rest.map Prod.fst := by
        rcases (by simpa using h) with h1 | h1
        · exact absurd h1.symm hk
        · simpa using h1
      simp [storeModel, hk, ih hmem]

lemma updateNodeModelsLoop_keys (msg : Msg) (rest : List (String × NodeModel)) :
    ∀ (reg : Registry) (cmds : List (Option Cmd)) (cancels : Nat),
      (∀ e ∈ rest, e.2.getModelID ∈ reg.map Prod.fst) →
      ((updateNodeModelsLoop msg reg rest cmds cancels).models.map Prod.fst)
        = reg.map Prod.fst := by
  induction rest with
  | nil => intro reg cmds cancels _; rfl
  | cons e rest ih =>
    intro reg cmds cancels h
    have hid : ((e.2.update msg).model).getModelID = e.2.getModelID :=
      NodeModel.update_getModelID e.2 msg
    have hmem : e.2.getModelID ∈ reg.map Prod.fst := h e (by simp)
    have hstore :
        (storeModel reg ((e.2.update msg).model).getModelID
          ((e.2.update msg).model)).map Prod.fst = reg.map Prod.fst := by
      rw [hid]
      exact storeModel_keys reg e.2.getModelID _ hmem
    have hrest : ∀ e2 ∈ rest, e2.2.getModelID ∈
        (storeModel reg ((e.2.update msg).model).getModelID
          ((e.2.update msg).model)).map Prod.fst := by
      intro e2 he2
      rw [hstore]
      exact h e2 (List.mem_cons_of_mem _ he2)
    simp only [updateNodeModelsLoop]
    rw [ih _ _ _ hrest, hstore]

lemma updateNodeModelsLoop_drain_length (msg : Msg) (rest : List (String × NodeModel)) :
    ∀ (reg : Registry) (cmds : List (Option Cmd)) (cancels : Nat),
      (drainOpt (updateNodeModelsLoop msg reg rest cmds cancels).cmd).length ≤
        (cmds.map fun c => (drainOpt c).length).sum + rest.length := by
  induction rest with
  | nil =>
    intro reg cmds cancels
    simp [updateNodeModelsLoop, drainOpt_teaBatch_length]
  | cons e rest ih =>
    intro reg cmds cancels
    simp only [updateNodeModelsLoop]
    refine le_trans (ih _ _ _) ?_
    have hle := NodeModel.update_drain_le e.2 msg
    simp only [List.map_append, List.sum_append, List.map_cons, List.map_nil,
      List.sum_cons, List.sum_nil, List.length_cons]
    omega

lemma State.toNat_le_three (s : State) : s.toNat ≤ 3 := by
  cases s <;> decide

lemma DefaultLeafModel.update_ignores_properties (i : String) (s : State)
    (pa pb : Properties) (cs : Bool) (msg : Msg) :
    (((⟨⟨i, s, pa, cs⟩⟩ : DefaultLeafModel).update msg).model).toDefaultCommonModel.state
      = (((⟨⟨i, s, pb, cs⟩⟩ : DefaultLeafModel).update msg).model).toDefaultCommonModel.state ∧
    ((⟨⟨i, s, pa, cs⟩⟩ : DefaultLeafModel).update msg).cmd
      = ((⟨⟨i, s, pb, cs⟩⟩ : DefaultLeafModel).update msg).cmd ∧
    ((⟨⟨i, s, pa, cs⟩⟩ : DefaultLeafModel).update msg).cancels
      = ((⟨⟨i, s, pb, cs⟩⟩ : DefaultLeafModel).update msg).cancels := by
  refine ⟨?_, ?_, ?_⟩ <;>
    (cases msg <;>
      simp only [DefaultLeafModel.update, DefaultCommonModel.getModelID,
        DefaultCommonModel.isShuttingDown, DefaultCommonModel.isFinished] <;>
      (repeat' split) <;> rfl)

lemma focus_filter (X : String) (l : List NodeModel) :
    ((l.map fun n => (n.update (.setFocusMsg X)).model).filter NodeModel.isFocused).map
      NodeModel.getModelID = (l.map NodeModel.getModelID).filter (fun s => s == X) := by
  induction l with
  | nil => rfl
  | cons n l ih =>
    simp only [List.map_cons, List.filter_cons, NodeModel.update_setFocus_isFocused,
      NodeModel.update_getModelID]
    by_cases h : (n.getModelID == X) = true
    · rw [if_pos h, if_pos h, List.map_cons, NodeModel.update_getModelID, ih]
    · rw [if_neg h, if_neg h, ih]

lemma nodup_filter_beq (X : String) (l : List String) (h1 : l.Nodup) (h2 : X ∈ l) :
    l.filter (fun s => s == X) = [X] := by
  induction l with
  | nil => cases h2
  | cons a l ih =>
    rcases List.nodup_cons.mp h1 with ⟨hna, hnd⟩
    by_cases ha : a = X
    · subst ha
      have hnil : l.filter (fun s => s == a) = [] := by
        rw [List.filter_eq_nil_iff]
        intro b hb
        simp only [beq_iff_eq]
        exact fun hba => hna (hba ▸ hb)
      simp [List.filter_cons, hnil]
    · have hX : X ∈ l := by
        rcases List.mem_cons.mp h2 with h | h
        · exact absurd h.symm ha
        · exact h
      have hab : (a == X) = false := by
        simpa using ha
      simp [List.filter_cons, hab, ih hnd hX]

lemma leaf_state_monotone_or_finished_shutdown (m : DefaultLeafModel) (msg : Msg) :
    m.toDefaultCommonModel.state.toNat
        ≤ ((m.update msg).model).toDefaultCommonModel.state.toNat ∨
      (m.toDefaultCommonModel.state = .finishedState ∧
        (∃ ids, msg = .shutDownMsg ids ∧
          shutDownIsRecipient ids m.toDefaultCommonModel.id = true) ∧
        ((m.update msg).model).toDefaultCommonModel.state = .shuttingDownState) := by
  cases msg
  case shutDownMsg ids =>
    simp only [DefaultLeafModel.update]
    split
    next hguard =>
      rw [Bool.and_eq_true] at hguard
      rcases hguard with ⟨hrec, hnsd⟩
      cases hstate : m.toDefaultCommonModel.state with
      | inactiveState =>
        exact Or.inl (show State.inactiveState.toNat ≤ State.shuttingDownState.toNat
          by decide)
      | activeState =>
        exact Or.inl (show State.activeState.toNat ≤ State.shuttingDownState.toNat
          by decide)
      | shuttingDownState =>
        rw [DefaultCommonModel.isShuttingDown, hstate] at hnsd
        simp at hnsd
      | finishedState => exact Or.inr ⟨rfl, ⟨ids, rfl, hrec⟩, rfl⟩
    next hguard => exact Or.inl (Nat.le_refl _)
  case modelFinishedMsg mid =>
    simp only [DefaultLeafModel.update]
    split
    · exact Or.inl (State.toNat_le_three _)
    · exact Or.inl (Nat.le_refl _)
  case setFocusMsg mid =>
    simp only [DefaultLeafModel.update]
    (repeat' split) <;> exact Or.inl (Nat.le_refl _)
  case setDisabledMsg ids =>
    simp only [DefaultLeafModel.update]
    (repeat' split) <;> exact Or.inl (Nat.le_refl _)
  all_goals exact Or.inl (Nat.le_refl _)

lemma branch_state_monotone_or_finished_shutdown (c : DefaultCommonModel) (msg : Msg) :
    c.state.toNat ≤ ((DefaultBranchModel.update c msg).model).state.toNat ∨
      (c.state = .finishedState ∧
        (∃ ids, msg = .shutDownMsg ids ∧ shutDownIsRecipient ids c.id = true) ∧
        ((DefaultBranchModel.update c msg).model).state = .shuttingDownState) := by
  cases msg
  case shutDownMsg ids =>
    simp only [DefaultBranchModel.update]
    split
    next hguard =>
      rw [Bool.and_eq_true] at hguard
      rcases hguard with ⟨hrec, hnsd⟩
      cases hstate : c.state with
      | inactiveState =>
        exact Or.inl (show State.inactiveState.toNat ≤ State.shuttingDownState.toNat
          by decide)
      | activeState =>
        exact Or.inl (show State.activeState.toNat ≤ State.shuttingDownState.toNat
          by decide)
      | shuttingDownState =>
        rw [DefaultCommonModel.isShuttingDown, hstate] at hnsd
        simp at hnsd
      | finishedState => exact Or.inr ⟨rfl, ⟨ids, rfl, hrec⟩, rfl⟩
    next hguard => exact Or.inl (Nat.le_refl _)
  case modelFinishedMsg mid =>
    simp only [DefaultBranchModel.update]
    split
    · exact Or.inl (State.toNat_le_three _)
    · exact Or.inl (Nat.le_refl _)
  case setFocusMsg mid =>
    simp only [DefaultBranchModel.update]
    (repeat' split) <;> exact Or.inl (Nat.le_refl _)
  case setDisabledMsg ids =>
    simp only [DefaultBranchModel.update]
    (repeat' split) <;> exact Or.inl (Nat.le_refl _)
  all_goals exact Or.inl (Nat.le_refl _)

/-! ### Claim theorems -/

/-- Claim C9: the command constructors are pure deferred producers —
invoking the producer returned by each constructor yields exactly the
corresponding message with the given payload, and the message produced
by `ModelFinishedCmd id` always has `id` as its recipient. -/
theorem c9_command_constructors_pure (ids dids : List String) (id X : String)
    (e : GoError) :
    drainOpt (ShutDownCmd ids) = [Msg.shutDownMsg ids] ∧
    drainOpt (ModelFinishedCmd id) = [Msg.modelFinishedMsg id] ∧
    drainOpt (SetFocusCmd X) = [Msg.setFocusMsg X] ∧
    drainOpt (SetDisabledCmd dids) = [Msg.setDisabledMsg dids] ∧
    drainOpt (ErrCmd e) = [Msg.errMsg e] ∧
    modelFinishedIsRecipient id id = true := by
  refine ⟨rfl, rfl, rfl, rfl, rfl, ?_⟩
  simp [modelFinishedIsRecipient]

/-- Claim C6: after a `SetDisabledMsg` carrying the ID set `S`, the
default update result satisfies `IsDisabled` exactly when the node's
own ID is a member of `S` — members of `S` gain Disabled, every other
node loses it; the message redefines the disabled set. -/
theorem c6_disabled_set_redefinition (m : DefaultLeafModel) (c : DefaultCommonModel)
    (n : NodeModel) (ids ids2 ids3 : List String) :
    ((m.update (.setDisabledMsg ids)).model).toDefaultCommonModel.isDisabled
      = setDisabledIsRecipient ids m.toDefaultCommonModel.id ∧
    ((DefaultBranchModel.update c (.setDisabledMsg ids2)).model).isDisabled
      = setDisabledIsRecipient ids2 c.id ∧
    ((n.update (.setDisabledMsg ids3)).model).isDisabled
      = setDisabledIsRecipient ids3 n.getModelID :=
  ⟨DefaultLeafModel.leafUpdate_setDisabled_isDisabled m ids,
   DefaultBranchModel.branchUpdate_setDisabled_isDisabled c ids2,
   NodeModel.update_setDisabled_isDisabled n ids3⟩

/-- Claim C8 (code bug): delivering `ErrMsg` to the example root model
sets its quitting flag and returns `tea.Quit` on the same cycle, but
does not record the error — the root's `err` field is left exactly as
it was (so the last-error accessor still returns its old value, `nil`
in any run), even though the quitting view and the process exit path
read that field.  This holds for every child-update function, since
the `ErrMsg` case returns before the child fan-out. -/
theorem c8_root_error_not_recorded {C : Type} (childUpd : C → Msg → C × Option Cmd)
    (m : ExampleRoot.Model C) (e : GoError) :
    (ExampleRoot.Model.update childUpd m (.errMsg e)).1.err = m.err ∧
    (ExampleRoot.Model.update childUpd m (.errMsg e)).1.quitting = true ∧
    (ExampleRoot.Model.update childUpd m (.errMsg e)).2 = some Cmd.quit :=
  ⟨rfl, rfl, rfl⟩

/-- Claim C3: an Active node (leaf or branch) whose ID is in the
target set of a `ShutDownMsg`, and whose cancel handle is set, moves
to ShuttingDown, invokes its cancellation handle exactly once during
the call, and returns a command that drains to exactly one
`ModelFinishedMsg` addressed to its own ID. -/
theorem c3_shutdown_transition (m : DefaultLeafModel) (c : DefaultCommonModel)
    (ids ids2 : List String)
    (hm1 : m.toDefaultCommonModel.state = .activeState)
    (hm2 : shutDownIsRecipient ids m.toDefaultCommonModel.id = true)
    (hm3 : m.toDefaultCommonModel.cancelSet = true)
    (hc1 : c.state = .activeState)
    (hc2 : shutDownIsRecipient ids2 c.id = true)
    (hc3 : c.cancelSet = true) :
    ((m.update (.shutDownMsg ids)).model).toDefaultCommonModel.state
      = .shuttingDownState ∧
    (m.update (.shutDownMsg ids)).cancels = 1 ∧
    drainOpt (m.update (.shutDownMsg ids)).cmd
      = [Msg.modelFinishedMsg m.toDefaultCommonModel.id] ∧
    ((DefaultBranchModel.update c (.shutDownMsg ids2)).model).state
      = .shuttingDownState ∧
    (DefaultBranchModel.update c (.shutDownMsg ids2)).cancels = 1 ∧
    drainOpt (DefaultBranchModel.update c (.shutDownMsg ids2)).cmd
      = [Msg.modelFinishedMsg c.id] := by
  have hgm : (shutDownIsRecipient ids m.toDefaultCommonModel.getModelID &&
      !m.toDefaultCommonModel.isShuttingDown) = true := by
    simp [DefaultCommonModel.getModelID, DefaultCommonModel.isShuttingDown, hm1, hm2]
  have hgc : (shutDownIsRecipient ids2 c.getModelID && !c.isShuttingDown) = true := by
    simp [DefaultCommonModel.getModelID, DefaultCommonModel.isShuttingDown, hc1, hc2]
  simp only [DefaultLeafModel.update, DefaultBranchModel.update]
  rw [if_pos hgm, if_pos hgc]
  refine ⟨rfl, ?_, rfl, rfl, ?_, rfl⟩
  · simp [DefaultCommonModel.cancelContextCount, hm3]
  · simp [DefaultCommonModel.cancelContextCount, hc3]

/-- Claim C3 witness: the shutdown transition at the concrete Active
nodes `app` (leaf) and `core` (branch). -/
theorem c3_shutdown_transition_witness :
    ((appNode.update (.shutDownMsg ["app"])).model).toDefaultCommonModel.state
      = .shuttingDownState ∧
    (appNode.update (.shutDownMsg ["app"])).cancels = 1 ∧
    drainOpt (appNode.update (.shutDownMsg ["app"])).cmd
      = [Msg.modelFinishedMsg appNode.toDefaultCommonModel.id] ∧
    ((DefaultBranchModel.update sampleCoreCommon (.shutDownMsg ["core"])).model).state
      = .shuttingDownState ∧
    (DefaultBranchModel.update sampleCoreCommon (.shutDownMsg ["core"])).cancels = 1 ∧
    drainOpt (DefaultBranchModel.update sampleCoreCommon (.shutDownMsg ["core"])).cmd
      = [Msg.modelFinishedMsg sampleCoreCommon.id] :=
  c3_shutdown_transition appNode sampleCoreCommon ["app"] ["core"]
    rfl (by decide) rfl rfl (by decide) rfl

/-- Claim C1 (amended): under the default leaf and branch updates, the
lifecycle state never decreases in the order Inactive < Active <
ShuttingDown < Finished, except in exactly one case — a `ShutDownMsg`
whose target set contains the node's ID, delivered while the node is
already in FinishedState, moves it back to ShuttingDownState (the
shutdown guard checks only `IsShuttingDown`, not `IsFinished`). -/
theorem c1_lifecycle_monotone_except_finished_shutdown
    (m : DefaultLeafModel) (c : DefaultCommonModel) (msg msg2 : Msg) :
    (m.toDefaultCommonModel.state.toNat
        ≤ ((m.update msg).model).toDefaultCommonModel.state.toNat ∨
      (m.toDefaultCommonModel.state = .finishedState ∧
        (∃ ids, msg = .shutDownMsg ids ∧
          shutDownIsRecipient ids m.toDefaultCommonModel.id = true) ∧
        ((m.update msg).model).toDefaultCommonModel.state = .shuttingDownState)) ∧
    (c.state.toNat ≤ ((DefaultBranchModel.update c msg2).model).state.toNat ∨
      (c.state = .finishedState ∧
        (∃ ids, msg2 = .shutDownMsg ids ∧ shutDownIsRecipient ids c.id = true) ∧
        ((DefaultBranchModel.update c msg2).model).state = .shuttingDownState)) :=
  ⟨leaf_state_monotone_or_finished_shutdown m msg,
   branch_state_monotone_or_finished_shutdown c msg2⟩

/-- Claim C1 counterexample: the Active node `app` is driven to
FinishedState by the reachable sequence `ShutDown({app})`,
`ModelFinished(app)`; delivering `ShutDown({app})` once more then moves
it back to ShuttingDownState, so `GetState()` decreases under the
order Inactive < Active < ShuttingDown < Finished. -/
theorem c1_counterexample :
    (((appNode.update (.shutDownMsg ["app"])).model.update
        (.modelFinishedMsg "app")).model.toDefaultCommonModel.state
      = .finishedState) ∧
    ((((appNode.update (.shutDownMsg ["app"])).model.update
        (.modelFinishedMsg "app")).model.update
          (.shutDownMsg ["app"])).model.toDefaultCommonModel.state
      = .shuttingDownState) ∧
    ((((appNode.update (.shutDownMsg ["app"])).model.update
        (.modelFinishedMsg "app")).model.update
          (.shutDownMsg ["app"])).model.toDefaultCommonModel.state.toNat
      < ((appNode.update (.shutDownMsg ["app"])).model.update
          (.modelFinishedMsg "app")).model.toDefaultCommonModel.state.toNat) := by
  decide

/-- Claim C2 (amended): the default leaf Update implements no Disabled
short-circuit at all.  For every node and message, the resulting
lifecycle state, returned command and number of cancellation-handle
invocations are the same whether or not the node carries the Disabled
property — lifecycle messages are processed even while Disabled.
Disable and focus property messages are likewise always evaluated, so
a Disabled node can always be re-enabled or have its focus toggled. -/
theorem c2_default_update_has_no_disabled_short_circuit
    (m : DefaultLeafModel) (msg : Msg) (ids : List String) (X : String) :
    (((disabledCopy m).update msg).model).toDefaultCommonModel.state
      = ((m.update msg).model).toDefaultCommonModel.state ∧
    ((disabledCopy m).update msg).cmd = (m.update msg).cmd ∧
    ((disabledCopy m).update msg).cancels = (m.update msg).cancels ∧
    (((disabledCopy m).update (.setDisabledMsg ids)).model).toDefaultCommonModel.isDisabled
      = setDisabledIsRecipient ids m.toDefaultCommonModel.id ∧
    (((disabledCopy m).update (.setFocusMsg X)).model).toDefaultCommonModel.isFocused
      = (m.toDefaultCommonModel.id == X) := by
  obtain ⟨⟨i, s, p, cs⟩⟩ := m
  exact ⟨(DefaultLeafModel.update_ignores_properties i s (Properties.setDisabled p)
      p cs msg).1,
    (DefaultLeafModel.update_ignores_properties i s (Properties.setDisabled p)
      p cs msg).2.1,
    (DefaultLeafModel.update_ignores_properties i s (Properties.setDisabled p)
      p cs msg).2.2,
    DefaultLeafModel.leafUpdate_setDisabled_isDisabled (disabledCopy ⟨⟨i, s, p, cs⟩⟩) ids,
    DefaultLeafModel.leafUpdate_setFocus_isFocused (disabledCopy ⟨⟨i, s, p, cs⟩⟩) X⟩

/-- Claim C2 counterexample: the Disabled, Active node `cfg` receiving
`ShutDown({cfg})` — a message that is neither SetDisabled nor SetFocus
— is not returned unchanged with a nil command: the default Update
moves it to ShuttingDownState and returns a command that drains to a
`ModelFinishedMsg`, so lifecycle messages are not skipped while
Disabled. -/
theorem c2_counterexample :
    disabledActiveLeaf.toDefaultCommonModel.isDisabled = true ∧
    (disabledActiveLeaf.update (.shutDownMsg ["cfg"])).model ≠ disabledActiveLeaf ∧
    (disabledActiveLeaf.update
        (.shutDownMsg ["cfg"])).model.toDefaultCommonModel.state
      = .shuttingDownState ∧
    drainOpt (disabledActiveLeaf.update (.shutDownMsg ["cfg"])).cmd
      = [Msg.modelFinishedMsg "cfg"] := by
  decide

/-- Claim C4 (amended): delivering a `ShutDownMsg` to a node already in
ShuttingDownState is idempotent — unchanged model, nil command, no
cancellation — and stays so under repeated delivery; but a node in
FinishedState targeted by a `ShutDownMsg` is *not* left unchanged: it
re-enters ShuttingDownState, invokes its cancellation handle again
(when the handle is set) and emits another `ModelFinishedCmd`, because
the guard checks only `IsShuttingDown`. -/
theorem c4_shutdown_idempotent_only_while_shutting_down
    (m m2 : DefaultLeafModel) (c c2 : DefaultCommonModel)
    (ids ids2 ids3 ids4 : List String)
    (h1 : m.toDefaultCommonModel.state = .shuttingDownState)
    (h2 : c.state = .shuttingDownState)
    (h3 : m2.toDefaultCommonModel.state = .finishedState)
    (h4 : shutDownIsRecipient ids3 m2.toDefaultCommonModel.id = true)
    (h5 : c2.state = .finishedState)
    (h6 : shutDownIsRecipient ids4 c2.id = true) :
    m.update (.shutDownMsg ids) = ⟨m, none, 0⟩ ∧
    ((m.update (.shutDownMsg ids)).model).update (.shutDownMsg ids) = ⟨m, none, 0⟩ ∧
    DefaultBranchModel.update c (.shutDownMsg ids2) = ⟨c, none, 0⟩ ∧
    ((m2.update (.shutDownMsg ids3)).model).toDefaultCommonModel.state
      = .shuttingDownState ∧
    (m2.update (.shutDownMsg ids3)).cancels
      = m2.toDefaultCommonModel.cancelContextCount ∧
    drainOpt (m2.update (.shutDownMsg ids3)).cmd
      = [Msg.modelFinishedMsg m2.toDefaultCommonModel.id] ∧
    ((DefaultBranchModel.update c2 (.shutDownMsg ids4)).model).state
      = .shuttingDownState ∧
    (DefaultBranchModel.update c2 (.shutDownMsg ids4)).cancels
      = c2.cancelContextCount ∧
    drainOpt (DefaultBranchModel.update c2 (.shutDownMsg ids4)).cmd
      = [Msg.modelFinishedMsg c2.id] := by
  have hm : m.update (.shutDownMsg ids) = ⟨m, none, 0⟩ := by
    simp only [DefaultLeafModel.update]
    rw [if_neg (by simp [DefaultCommonModel.isShuttingDown, h1])]
    rfl
  have hc : DefaultBranchModel.update c (.shutDownMsg ids2) = ⟨c, none, 0⟩ := by
    simp only [DefaultBranchModel.update]
    rw [if_neg (by simp [DefaultCommonModel.isShuttingDown, h2])]
    rfl
  have hgm2 : (shutDownIsRecipient ids3 m2.toDefaultCommonModel.getModelID &&
      !m2.toDefaultCommonModel.isShuttingDown) = true := by
    simp [DefaultCommonModel.getModelID, DefaultCommonModel.isShuttingDown, h3, h4]
  have hgc2 : (shutDownIsRecipient ids4 c2.getModelID && !c2.isShuttingDown) = true := by
    simp [DefaultCommonModel.getModelID, DefaultCommonModel.isShuttingDown, h5, h6]
  refine ⟨hm, ?_, hc, ?_, ?_, ?_, ?_, ?_, ?_⟩
  · rw [hm]
    exact hm
  · simp only [DefaultLeafModel.update]
    rw [if_pos hgm2]
  · simp only [DefaultLeafModel.update]
    rw [if_pos hgm2]
  · simp only [DefaultLeafModel.update]
    rw [if_pos hgm2]
    rfl
  · simp only [DefaultBranchModel.update]
    rw [if_pos hgc2]
  · simp only [DefaultBranchModel.update]
    rw [if_pos hgc2]
  · simp only [DefaultBranchModel.update]
    rw [if_pos hgc2]
    rfl

/-- Claim C4 witness: idempotence at the concrete ShuttingDown nodes
`app` and `core`, and the Finished-state divergence at the concrete
Finished nodes `app` and `core`. -/
theorem c4_shutdown_idempotent_witness :
    shuttingNode.update (.shutDownMsg ["app"]) = ⟨shuttingNode, none, 0⟩ ∧
    ((shuttingNode.update (.shutDownMsg ["app"])).model).update (.shutDownMsg ["app"])
      = ⟨shuttingNode, none, 0⟩ ∧
    DefaultBranchModel.update shuttingCoreCommon (.shutDownMsg ["core"])
      = ⟨shuttingCoreCommon, none, 0⟩ ∧
    ((finishedNode.update (.shutDownMsg ["app"])).model).toDefaultCommonModel.state
      = .shuttingDownState ∧
    (finishedNode.update (.shutDownMsg ["app"])).cancels
      = finishedNode.toDefaultCommonModel.cancelContextCount ∧
    drainOpt (finishedNode.update (.shutDownMsg ["app"])).cmd
      = [Msg.modelFinishedMsg finishedNode.toDefaultCommonModel.id] ∧
    ((DefaultBranchModel.update finishedCoreCommon (.shutDownMsg ["core"])).model).state
      = .shuttingDownState ∧
    (DefaultBranchModel.update finishedCoreCommon (.shutDownMsg ["core"])).cancels
      = finishedCoreCommon.cancelContextCount ∧
    drainOpt (DefaultBranchModel.update finishedCoreCommon (.shutDownMsg ["core"])).cmd
      = [Msg.modelFinishedMsg finishedCoreCommon.id] :=
  c4_shutdown_idempotent_only_while_shutting_down shuttingNode finishedNode
    shuttingCoreCommon finishedCoreCommon ["app"] ["core"] ["app"] ["core"]
    rfl rfl rfl (by decide) rfl (by decide)

/-- Claim C4 counterexample: the Finished node `app` targeted by
`ShutDown({app})` does undergo a further state change (back to
ShuttingDownState), one additional cancellation-handle invocation, and
one additional command — so shutdown delivery to a Finished node is
not idempotent. -/
theorem c4_counterexample :
    (finishedNode.update (.shutDownMsg ["app"])).model ≠ finishedNode ∧
    (finishedNode.update (.shutDownMsg ["app"])).model.toDefaultCommonModel.state
      = .shuttingDownState ∧
    (finishedNode.update (.shutDownMsg ["app"])).cancels = 1 ∧
    drainOpt (finishedNode.update (.shutDownMsg ["app"])).cmd
      = [Msg.modelFinishedMsg "app"] := by
  decide

/-- Claim C5: after a `SetFocusMsg` carrying ID `X`, the model returned
by the default update (leaf or branch) reports `IsFocused` exactly when
its own ID equals `X`; consequently, delivering `SetFocus(X)` to every
node of a collection of default models with distinct IDs containing
`X` leaves exactly one focused node — the one with ID `X`. -/
theorem c5_exclusive_focus (m : DefaultLeafModel) (c : DefaultCommonModel)
    (ms : List NodeModel) (X Y Z : String)
    (h1 : (ms.map NodeModel.getModelID).Nodup)
    (h2 : X ∈ ms.map NodeModel.getModelID) :
    ((m.update (.setFocusMsg Y)).model).toDefaultCommonModel.isFocused
      = (m.toDefaultCommonModel.id == Y) ∧
    ((DefaultBranchModel.update c (.setFocusMsg Z)).model).isFocused
      = (c.id == Z) ∧
    (((ms.map fun n => (n.update (.setFocusMsg X)).model).filter
        NodeModel.isFocused).map NodeModel.getModelID) = [X] := by
  refine ⟨DefaultLeafModel.leafUpdate_setFocus_isFocused m Y,
    DefaultBranchModel.branchUpdate_setFocus_isFocused c Z, ?_⟩
  rw [focus_filter]
  exact nodup_filter_beq X _ h1 h2

/-- Claim C5 witness: delivering `SetFocus("cfg")` to the two-node
collection `cfg` (leaf), `core` (branch) leaves exactly the node `cfg`
focused; the per-node equivalences hold at those nodes as well. -/
theorem c5_exclusive_focus_witness :
    ((sampleCfgLeaf.update (.setFocusMsg "cfg")).model).toDefaultCommonModel.isFocused
      = (sampleCfgLeaf.toDefaultCommonModel.id == "cfg") ∧
    ((DefaultBranchModel.update sampleCoreCommon (.setFocusMsg "cfg")).model).isFocused
      = (sampleCoreCommon.id == "cfg") ∧
    ((([NodeModel.leaf sampleCfgLeaf,
        NodeModel.branch sampleCoreCommon []].map fun n =>
          (n.update (.setFocusMsg "cfg")).model).filter
        NodeModel.isFocused).map NodeModel.getModelID) = ["cfg"] :=
  c5_exclusive_focus sampleCfgLeaf sampleCoreCommon
    [NodeModel.leaf sampleCfgLeaf, NodeModel.branch sampleCoreCommon []]
    "cfg" "cfg" "cfg" (by decide) (by decide)

/-- Claim C7: one `UpdateNodeModels` call of a branch or root node
whose registry holds N children (each stored under its own model ID)
returns a batched command that drains to at most N+1 messages, and
leaves the registry with exactly N entries under the same keys — no
child is lost or duplicated. -/
theorem c7_fanout_completeness (models : Registry) (msg : Msg)
    (h : ∀ e ∈ models, e.1 = e.2.getModelID) :
    (DefaultBranchModel.updateNodeModels models msg).models.map Prod.fst
      = models.map Prod.fst ∧
    (DefaultBranchModel.updateNodeModels models msg).models.length = models.length ∧
    (drainOpt (DefaultBranchModel.updateNodeModels models msg).cmd).length
      ≤ models.length + 1 ∧
    (DefaultRootModel.updateNodeModels models msg).models.map Prod.fst
      = models.map Prod.fst ∧
    (DefaultRootModel.updateNodeModels models msg).models.length = models.length ∧
    (drainOpt (DefaultRootModel.updateNodeModels models msg).cmd).length
      ≤ models.length + 1 := by
  have hmem : ∀ e ∈ models, e.2.getModelID ∈ models.map Prod.fst := by
    intro e he
    rw [← h e he]
    exact List.mem_map.mpr ⟨e, he, rfl⟩
  have hkeys := updateNodeModelsLoop_keys msg models models [] 0 hmem
  have hlen : (updateNodeModelsLoop msg models models [] 0).models.length
      = models.length := by
    have h2 := congrArg List.length hkeys
    simpa using h2
  have hdrain : (drainOpt (updateNodeModelsLoop msg models models [] 0).cmd).length
      ≤ models.length + 1 := by
    have h3 := updateNodeModelsLoop_drain_length msg models models [] 0
    simp only [List.map_nil, List.sum_nil, Nat.zero_add] at h3
    exact Nat.le_succ_of_le h3
  exact ⟨hkeys, hlen, hdrain, hkeys, hlen, hdrain⟩

/-- Claim C7 witness: the fan-out over the concrete two-child registry
(`cfg` leaf, `core` branch) with a `ShutDown({cfg})` message keeps both
keys, keeps exactly two entries, and its batched command drains to at
most three messages. -/
theorem c7_fanout_completeness_witness :
    (DefaultBranchModel.updateNodeModels sampleRegistry
        (.shutDownMsg ["cfg"])).models.map Prod.fst = ["cfg", "core"] ∧
    (DefaultBranchModel.updateNodeModels sampleRegistry
        (.shutDownMsg ["cfg"])).models.length = 2 ∧
    (drainOpt (DefaultBranchModel.updateNodeModels sampleRegistry
        (.shutDownMsg ["cfg"])).cmd).length ≤ 3 ∧
    (DefaultRootModel.updateNodeModels sampleRegistry
        (.shutDownMsg ["cfg"])).models.map Prod.fst = ["cfg", "core"] ∧
    (DefaultRootModel.updateNodeModels sampleRegistry
        (.shutDownMsg ["cfg"])).models.length = 2 ∧
    (drainOpt (DefaultRootModel.updateNodeModels sampleRegistry
        (.shutDownMsg ["cfg"])).cmd).length ≤ 3 :=
  c7_fanout_completeness sampleRegistry (.shutDownMsg ["cfg"]) (by decide)

/-- Claim C10: the default leaf and branch updates return a model with
the same `GetModelID` as the input for every message; consequently the
fan-out's store-back under `model.GetModelID()` always rewrites an
existing registry key, and the registry key list is unchanged by an
update cycle of a branch or root fan-out. -/
theorem c10_identity_preservation (m : DefaultLeafModel) (c : DefaultCommonModel)
    (n : NodeModel) (msg msg2 msg3 msg4 : Msg) (models : Registry)
    (h : ∀ e ∈ models, e.1 = e.2.getModelID) :
    ((m.update msg).model).toDefaultCommonModel.id = m.toDefaultCommonModel.id ∧
    ((DefaultBranchModel.update c msg2).model).id = c.id ∧
    ((n.update msg3).model).getModelID = n.getModelID ∧
    (DefaultBranchModel.updateNodeModels models msg4).models.map Prod.fst
      = models.map Prod.fst ∧
    (DefaultRootModel.updateNodeModels models msg4).models.map Prod.fst
      = models.map Prod.fst := by
  have hmem : ∀ e ∈ models, e.2.getModelID ∈ models.map Prod.fst := by
    intro e he
    rw [← h e he]
    exact List.mem_map.mpr ⟨e, he, rfl⟩
  have hkeys := updateNodeModelsLoop_keys msg4 models models [] 0 hmem
  exact ⟨DefaultLeafModel.leafUpdate_id m msg, DefaultBranchModel.branchUpdate_id c msg2,
    NodeModel.update_getModelID n msg3, hkeys, hkeys⟩

/-- Claim C10 witness: identity preservation at the concrete nodes
`cfg` and `core` and key-list invariance of the concrete two-child
registry under a `SetDisabled({core})` cycle. -/
theorem c10_identity_preservation_witness :
    ((sampleCfgLeaf.update (.setFocusMsg "zz")).model).toDefaultCommonModel.id
      = sampleCfgLeaf.toDefaultCommonModel.id ∧
    ((DefaultBranchModel.update sampleCoreCommon (.shutDownMsg ["core"])).model).id
      = sampleCoreCommon.id ∧
    (((NodeModel.branch sampleCoreCommon []).update
        (.modelFinishedMsg "core")).model).getModelID
      = (NodeModel.branch sampleCoreCommon []).getModelID ∧
    (DefaultBranchModel.updateNodeModels sampleRegistry
        (.setDisabledMsg ["core"])).models.map Prod.fst
      = sampleRegistry.map Prod.fst ∧
    (DefaultRootModel.updateNodeModels sampleRegistry
        (.setDisabledMsg ["core"])).models.map Prod.fst
      = sampleRegistry.map Prod.fst :=
  c10_identity_preservation sampleCfgLeaf sampleCoreCommon
    (NodeModel.branch sampleCoreCommon []) (.setFocusMsg "zz")
    (.shutDownMsg ["core"]) (.modelFinishedMsg "core") (.setDisabledMsg ["core"])
    sampleRegistry (by decide)

end Bubbletree

